import Mathlib

/-!
Verification of the Maamani asset-management system (SQLite variant,
`asset_manager.py`) against its natural-language specification.

The embedding models:
  * Python string helpers used by the code (`[:3]`, `.upper()`, `.zfill`,
    the `or` default idiom, truthiness of strings);
  * `generate_asset_tag`;
  * the asset store (`insert_asset`, `get_asset`, `update_asset`,
    `get_all_assets_df`) as a list of records, with the dynamic
    column-dictionary of `update_asset` modelled as a record of optional
    per-column changes, and the degenerate empty-dictionary call (whose
    malformed SQL makes the driver raise `sqlite3.OperationalError`)
    modelled as that error;
  * the Add / Update submit handlers (tag uniqueness check, update-count
    and update-history bookkeeping);
  * the credential store (`add_user`, `verify_user`), with the PBKDF2
    derivation abstracted as an explicit hash-function parameter;
  * `init_db`;
  * the dashboard's categorical filter block and category counting.
-/

/-! ## Python string primitives -/

/-- Python slicing `s[:n]` (by code points). -/
def pyTake (s : String) (n : Nat) : String := String.mk (s.data.take n)

/-- Python `s.upper()` (character-wise upper-casing). -/
def pyUpper (s : String) : String := String.mk (s.data.map Char.toUpper)

/-- Python `x or d` for an optional string `x`: the default is used when the
value is absent or the empty string (falsy). -/
def pyOr (o : Option String) (d : String) : String :=
  match o with
  | none => d
  | some s => if s = "" then d else s

/-- Python truthiness of an optional string: `False` for absent/empty. -/
def strTruthy (o : Option String) : Bool :=
  match o with
  | none => false
  | some s => s ≠ ""

/-- Python `str.zfill(w)`: left-fill with ASCII `'0'` up to width `w`,
keeping a leading sign character in front of the padding. -/
def zfill (s : String) (w : Nat) : String :=
  if w ≤ s.length then s
  else
    let pad := List.replicate (w - s.length) '0'
    match s.data with
    | [] => String.mk pad
    | c :: cs =>
      if c = '+' ∨ c = '-' then String.mk (c :: (pad ++ cs))
      else String.mk (pad ++ c :: cs)

/-! ## Timestamps

`now_iso()` in the source is `datetime.now().strftime("%Y-%m-%d %H:%M:%S")`.
We model the formatting as a pure function of the six clock fields. -/

/-- The decimal digit character for `n % 10`. -/
def digitChar10 (n : Nat) : Char :=
  if n = 0 then '0' else if n = 1 then '1' else if n = 2 then '2'
  else if n = 3 then '3' else if n = 4 then '4' else if n = 5 then '5'
  else if n = 6 then '6' else if n = 7 then '7' else if n = 8 then '8' else '9'

/-- Decimal digit list of a natural number (most significant first). -/
def natChars (n : Nat) : List Char :=
  if _h : n < 10 then [digitChar10 n]
  else natChars (n / 10) ++ [digitChar10 (n % 10)]
decreasing_by exact Nat.div_lt_self (by omega) (by omega)

/-- Decimal rendering of a natural number. -/
def natStr (n : Nat) : String := String.mk (natChars n)

/-- `strftime` zero-padded two-digit field (`%m`, `%d`, `%H`, `%M`, `%S`). -/
def pad2 (n : Nat) : String := zfill (natStr n) 2

/-- `strftime` zero-padded four-digit year (`%Y`). -/
def pad4 (n : Nat) : String := zfill (natStr n) 4

/-- `now_iso()`: the `"%Y-%m-%d %H:%M:%S"` rendering of the current time. -/
def now_iso (y mo d h mi s : Nat) : String :=
  pad4 y ++ "-" ++ pad2 mo ++ "-" ++ pad2 d ++ " " ++
    pad2 h ++ ":" ++ pad2 mi ++ ":" ++ pad2 s

/-! ## Data model -/

/-- The fields of the normalized form dictionary `form_norm` built by the
Add/Update submit handler: text inputs and ISO-normalized dates are strings
(possibly absent, since `generate_asset_tag` reads them defensively with
`.get`), the price is numeric. -/
structure FormData where
  asset_name : Option String := none
  category : Option String := none
  description : Option String := none
  serial_number : Option String := none
  assigned_to : Option String := none
  department : Option String := none
  purchase_date : Option String := none
  purchase_price_ghs : Rat := 0
  condition : Option String := none
  location : Option String := none
  status : Option String := none
  warranty_end_date : Option String := none
  maintenance_schedule : Option String := none
  disposal_date : Option String := none
  notes : Option String := none

/-- A row of the `assets` table. Text columns are nullable (`Option`);
`asset_tag` is the primary key; `date_added` is always written by the
creation path; `update_count` defaults to 0 and `update_history` is written
as `""` on creation. -/
structure Asset where
  asset_tag : String
  asset_name : Option String := none
  category : Option String := none
  description : Option String := none
  serial_number : Option String := none
  assigned_to : Option String := none
  department : Option String := none
  purchase_date : Option String := none
  purchase_price_ghs : Rat := 0
  condition : Option String := none
  location : Option String := none
  status : Option String := none
  warranty_end_date : Option String := none
  maintenance_schedule : Option String := none
  date_added : String := ""
  last_updated : Option String := none
  disposal_date : Option String := none
  notes : Option String := none
  update_count : Nat := 0
  update_history : String := ""

/-- The stored collection: the rows of the `assets` table. -/
abbrev Store := List Asset

/-- The dynamic `updates` dictionary passed to `update_asset`: one optional
entry per settable column (a present entry may itself carry SQL `NULL`).
The callers never place `asset_tag` or `date_added` in this dictionary. -/
structure Updates where
  asset_name : Option (Option String) := none
  category : Option (Option String) := none
  description : Option (Option String) := none
  serial_number : Option (Option String) := none
  assigned_to : Option (Option String) := none
  department : Option (Option String) := none
  purchase_date : Option (Option String) := none
  purchase_price_ghs : Option Rat := none
  condition : Option (Option String) := none
  location : Option (Option String) := none
  status : Option (Option String) := none
  warranty_end_date : Option (Option String) := none
  maintenance_schedule : Option (Option String) := none
  last_updated : Option (Option String) := none
  disposal_date : Option (Option String) := none
  notes : Option (Option String) := none
  update_count : Option Nat := none
  update_history : Option String := none

/-! ## Tag generation (`generate_asset_tag`) -/

/-- Transcription of `generate_asset_tag(form_data)`:
`serial = str(form_data.get("Serial Number", "")).zfill(4) if
form_data.get("Serial Number") else "0000"`, each of the other three parts
is `(form_data.get(key) or default)[:3].upper()`, and the result is
`f"{asset}-{loc}-{dept}-{serial}"`. -/
def generate_asset_tag (form_data : FormData) : String :=
  let serial := if strTruthy form_data.serial_number then
      zfill (form_data.serial_number.getD "") 4 else "0000"
  let dept := pyUpper (pyTake (pyOr form_data.department "GEN") 3)
  let loc := pyUpper (pyTake (pyOr form_data.location "LOC") 3)
  let asset := pyUpper (pyTake (pyOr form_data.asset_name "AST") 3)
  asset ++ "-" ++ loc ++ "-" ++ dept ++ "-" ++ serial

/-- Spec-side `firstThreeChars(field, pad)`: when the field is empty or
absent the literal default is substituted before truncation; a value
shorter than 3 characters is kept as-is. -/
def firstThreeChars (field : Option String) (padDefault : String) : String :=
  match field with
  | none => pyTake padDefault 3
  | some s => if s = "" then pyTake padDefault 3 else pyTake s 3

/-- Spec-side `zeroPad(serialNumber, width=4, pad="0000")`: an absent (or
empty, hence falsy) serial yields the literal `"0000"`; otherwise the
serial string is zero-left-padded to width 4 (the source language's
`zfill`, which keeps a leading sign in front of the padding). -/
def zeroPad (serial : Option String) : String :=
  match serial with
  | none => "0000"
  | some s => if s = "" then "0000" else zfill s 4

/-- The tag formula exactly as the specification phrases it:
`upper(firstThreeChars(assetName, "AST")) ++ "-" ++
upper(firstThreeChars(location, "LOC")) ++ "-" ++
upper(firstThreeChars(department, "GEN")) ++ "-" ++ zeroPad(serialNumber)`. -/
def specTag (f : FormData) : String :=
  pyUpper (firstThreeChars f.asset_name "AST") ++ "-" ++
    pyUpper (firstThreeChars f.location "LOC") ++ "-" ++
    pyUpper (firstThreeChars f.department "GEN") ++ "-" ++
    zeroPad f.serial_number

/-! ## Asset CRUD (SQLite layer) -/

/-- `get_asset(asset_tag)`: `SELECT * FROM assets WHERE asset_tag=?`,
returning the row as an option. -/
def get_asset (tag : String) (s : Store) : Option Asset :=
  s.find? (fun r => r.asset_tag == tag)

/-- `insert_asset(record)`: `INSERT INTO assets (...) VALUES (...)`. -/
def insert_asset (r : Asset) (s : Store) : Store := s ++ [r]

/-- The effect of one dynamically-built `UPDATE assets SET col=?, ...` row
assignment: every column present in the updates dictionary is overwritten
(possibly with `NULL`), every other column keeps its value; `asset_tag` and
`date_added` never occur in the dictionary at any call site. -/
def applyUpdates (r : Asset) (u : Updates) : Asset where
  asset_tag := r.asset_tag
  asset_name := u.asset_name.getD r.asset_name
  category := u.category.getD r.category
  description := u.description.getD r.description
  serial_number := u.serial_number.getD r.serial_number
  assigned_to := u.assigned_to.getD r.assigned_to
  department := u.department.getD r.department
  purchase_date := u.purchase_date.getD r.purchase_date
  purchase_price_ghs := u.purchase_price_ghs.getD r.purchase_price_ghs
  condition := u.condition.getD r.condition
  location := u.location.getD r.location
  status := u.status.getD r.status
  warranty_end_date := u.warranty_end_date.getD r.warranty_end_date
  maintenance_schedule := u.maintenance_schedule.getD r.maintenance_schedule
  date_added := r.date_added
  last_updated := u.last_updated.getD r.last_updated
  disposal_date := u.disposal_date.getD r.disposal_date
  notes := u.notes.getD r.notes
  update_count := u.update_count.getD r.update_count
  update_history := u.update_history.getD r.update_history

/-- Whether the updates dictionary has no entries (`updates.items()` is
empty), in which case the dynamic SQL's SET clause is empty. -/
def Updates.isEmptyDict (u : Updates) : Bool :=
  u.asset_name.isNone && u.category.isNone && u.description.isNone &&
    u.serial_number.isNone && u.assigned_to.isNone && u.department.isNone &&
    u.purchase_date.isNone && u.purchase_price_ghs.isNone && u.condition.isNone &&
    u.location.isNone && u.status.isNone && u.warranty_end_date.isNone &&
    u.maintenance_schedule.isNone && u.last_updated.isNone &&
    u.disposal_date.isNone && u.notes.isNone && u.update_count.isNone &&
    u.update_history.isNone

/-- The exception surfaced by the SQLite driver. -/
inductive SqlError where
  | operationalError

/-- `update_asset(asset_tag, updates)`: the dynamic SQL
`UPDATE assets SET col1=?, ... WHERE asset_tag=?`. With an empty updates
dictionary the statement degenerates to `UPDATE assets SET  WHERE
asset_tag=?` and `c.execute` raises `sqlite3.OperationalError` before
touching any row. Otherwise every row whose tag matches (at most one,
`asset_tag` being the primary key) receives the updates; a non-matching
tag updates no row and raises nothing. -/
def update_asset (tag : String) (u : Updates) (s : Store) : Except SqlError Store :=
  if u.isEmptyDict then Except.error SqlError.operationalError
  else Except.ok (s.map (fun r => if r.asset_tag == tag then applyUpdates r u else r))

/-- `get_all_assets_df()`: `SELECT * FROM assets ORDER BY date_added DESC`
— descending string order on the fixed-width timestamp column. -/
def assetOrder (a b : Asset) : Prop := b.date_added ≤ a.date_added

instance : DecidableRel assetOrder :=
  fun a b => inferInstanceAs (Decidable (b.date_added ≤ a.date_added))

instance : IsTotal Asset assetOrder := ⟨fun a b => le_total b.date_added a.date_added⟩

instance : IsTrans Asset assetOrder := ⟨fun _ _ _ h1 h2 => le_trans h2 h1⟩

def get_all_assets_df (s : Store) : Store := List.insertionSort assetOrder s

/-! ## Add / Update submit handlers -/

/-- The record built by the Add New Asset branch:
`record = dict(form_norm); record["Asset Tag"] = new_tag;
record["Date Added"] = now; record["Last Updated"] = now;
record["Update Count"] = 0; record["Update History"] = ""`. -/
def mkNewAsset (f : FormData) (tag now : String) : Asset where
  asset_tag := tag
  asset_name := f.asset_name
  category := f.category
  description := f.description
  serial_number := f.serial_number
  assigned_to := f.assigned_to
  department := f.department
  purchase_date := f.purchase_date
  purchase_price_ghs := f.purchase_price_ghs
  condition := f.condition
  location := f.location
  status := f.status
  warranty_end_date := f.warranty_end_date
  maintenance_schedule := f.maintenance_schedule
  date_added := now
  last_updated := some now
  disposal_date := f.disposal_date
  notes := f.notes
  update_count := 0
  update_history := ""

/-- The error surfaced by the Add New Asset branch when the generated tag
already exists (`st.error(f"Asset Tag '{new_tag}' already exists. ...")`). -/
inductive AddError where
  | duplicateTag

/-- The Add New Asset branch: generate the tag once, reject when
`get_asset(new_tag)` finds an existing row, otherwise insert the record. -/
def addAsset (f : FormData) (now : String) (s : Store) : Except AddError Store :=
  let new_tag := generate_asset_tag f
  match get_asset new_tag s with
  | some _ => Except.error AddError.duplicateTag
  | none => Except.ok (insert_asset (mkNewAsset f new_tag now) s)

/-- The updates dictionary built by the Update Existing Asset branch:
all form fields, plus `Last Updated = now`,
`Update Count = int(existing_uc) + 1`, and
`Update History = (existing_hist + " | " + now) if existing_hist else now`. -/
def mkUpdates (f : FormData) (now : String) (existing_uc : Nat)
    (existing_hist : String) : Updates where
  asset_name := some f.asset_name
  category := some f.category
  description := some f.description
  serial_number := some f.serial_number
  assigned_to := some f.assigned_to
  department := some f.department
  purchase_date := some f.purchase_date
  purchase_price_ghs := some f.purchase_price_ghs
  condition := some f.condition
  location := some f.location
  status := some f.status
  warranty_end_date := some f.warranty_end_date
  maintenance_schedule := some f.maintenance_schedule
  last_updated := some (some now)
  disposal_date := some f.disposal_date
  notes := some f.notes
  update_count := some (existing_uc + 1)
  update_history := some (if existing_hist = "" then now
    else existing_hist ++ " | " ++ now)

/-- The asset records producible by the application: created by the Add
branch (with a generated tag and a clock reading), then modified any number
of times by the Update branch, whose bookkeeping reads the record's own
current count and history. -/
inductive ReachableAsset : Asset → Prop where
  | created (f : FormData) (y mo d h mi s : Nat) :
      ReachableAsset (mkNewAsset f (generate_asset_tag f) (now_iso y mo d h mi s))
  | updated (f : FormData) (y mo d h mi s : Nat) (r : Asset) :
      ReachableAsset r →
      ReachableAsset (applyUpdates r
        (mkUpdates f (now_iso y mo d h mi s) r.update_count r.update_history))

/-- The number of `" | "`-separated timestamp entries of an update-history
string: 0 for the empty history, otherwise one more than the number of
separators. Since no timestamp ever contains the character `'|'`, each
separator contributes exactly one `'|'`. -/
def entryCount (h : String) : Nat :=
  if h.data = [] then 0 else h.data.count '|' + 1

/-! ## Credential store (`add_user`, `verify_user`, `init_db`) -/

/-- A row of the `users` table. -/
structure UserRow where
  username : String
  password_hash : String
  salt : String
  role : String

/-- `add_user(username, password, role)`: reject roles outside
`("admin", "user")` with `ValueError("Invalid role")`; otherwise derive the
hash from the password and a fresh salt (both the key-derivation function
and the sampled salt are passed in explicitly here) and
`INSERT OR REPLACE` the row, displacing any previous row of that username. -/
def add_user (hash : String → String → String) (username password role salt : String)
    (db : List UserRow) : Except String (List UserRow) :=
  if role = "admin" ∨ role = "user" then
    Except.ok ((db.filter (fun r => r.username != username)) ++
      [⟨username, hash password salt, salt, role⟩])
  else Except.error "Invalid role"

/-- `verify_user(username, password)`: look the row up by username; absent
rows give `(False, None)`; otherwise re-derive the hash with the stored
salt and compare (`secrets.compare_digest` is plain string equality,
computed in constant time). -/
def verify_user (hash : String → String → String) (username password : String)
    (db : List UserRow) : Bool × Option String :=
  match db.find? (fun r => r.username == username) with
  | none => (false, none)
  | some row =>
    if hash password row.salt = row.password_hash then (true, some row.role)
    else (false, none)

/-- The two persistent tables. -/
structure DBState where
  assets : Store
  users : List UserRow

/-- A fresh (empty) database. -/
def freshDB : DBState := ⟨[], []⟩

/-- `init_db()`: `CREATE TABLE IF NOT EXISTS` for both tables (a no-op on
the state model), read `st.secrets.get("ADMIN_PASSWORD", None)` into
`admin_pw`, and run `SELECT COUNT(*) FROM users WHERE username='admin'`
into `exists`; both values are returned here to record that they are read
— the function body uses neither, and in particular inserts no user row. -/
def init_db (admin_secret : Option String) (db : DBState) :
    DBState × Option String × Nat :=
  let admin_pw := admin_secret
  let adminCount := (db.users.filter (fun r => r.username == "admin")).length
  (db, admin_pw, adminCount)

/-! ## Dashboard filter block -/

/-- `Series.isin` semantics for one nullable column value: a `NULL` cell is
never a member. -/
def isinOpt (o : Option String) (xs : List String) : Bool :=
  match o with
  | some v => xs.contains v
  | none => false

/-- The categorical filter block of the Dashboard:
`if f_category: fdf = fdf[fdf["Category"].isin(f_category)]` and likewise
for Department, Condition and Status, in that order (a Python list is
truthy exactly when non-empty). -/
def dashboardFilter (f_category f_dept f_cond f_status : List String)
    (fdf : List Asset) : List Asset :=
  let fdf1 := if f_category.isEmpty then fdf
    else fdf.filter (fun r => isinOpt r.category f_category)
  let fdf2 := if f_dept.isEmpty then fdf1
    else fdf1.filter (fun r => isinOpt r.department f_dept)
  let fdf3 := if f_cond.isEmpty then fdf2
    else fdf2.filter (fun r => isinOpt r.condition f_cond)
  if f_status.isEmpty then fdf3
  else fdf3.filter (fun r => isinOpt r.status f_status)

/-- The count a category receives in the `value_counts()` grouping of the
Category column (`NULL` cells are dropped by `value_counts`). -/
def countCategory (l : List Asset) (c : String) : Nat :=
  (l.filter (fun r => r.category == some c)).length

/-! ## Tag shape (claim C4) and the spec-side update contract (claim C5) -/

/-- Split a character list on the separator `'-'` (the semantics of
splitting the tag string on `"-"`). -/
def splitD (l : List Char) : List (List Char) :=
  match l with
  | [] => [[]]
  | c :: rest =>
    if c = '-' then [] :: splitD rest
    else
      match splitD rest with
      | [] => [[c]]
      | a :: as => (c :: a) :: as

/-- The last `"-"`-separated segment of a string. -/
def lastSegment (t : String) : List Char := ((splitD t.data).getLast?).getD []

/-- The claimed tag format `XXX-XXX-XXX-NNNN`: exactly four
`"-"`-separated segments, the first three of three characters each, the
last consisting of exactly 4 digit characters. -/
def tagShape (t : String) : Bool :=
  match splitD t.data with
  | [s1, s2, s3, s4] =>
    s1.length == 3 && s2.length == 3 && s3.length == 3 &&
      s4.length == 4 && s4.all (fun c => c.isDigit)
  | _ => false

/-- The error taxonomy of the specification's Asset Repository. -/
inductive RepoError where
  | notFound
  | duplicateTag

/-- Spec-side reference for `applyPartialUpdate(tag, fieldChanges)`: fails
with `NotFoundError` if the tag is absent, otherwise applies the supplied
fields. The source's `update_asset` is compared against this reference. -/
def applyPartialUpdateSpec (tag : String) (u : Updates) (s : Store) :
    Except RepoError Store :=
  if s.any (fun r => r.asset_tag == tag) then
    Except.ok (s.map (fun r => if r.asset_tag == tag then applyUpdates r u else r))
  else Except.error RepoError.notFound

/-! ## Concrete records used by witnesses and counterexamples -/

/-- A form whose serial number is not numeric. -/
def fSerialAlpha : FormData := { serial_number := some "abc" }

/-- A form whose asset name is shorter than three characters. -/
def fShortName : FormData := { asset_name := some "ab", serial_number := some "7" }

/-- A form with a short numeric serial. -/
def fSerial12 : FormData := { serial_number := some "12" }

/-- A fully concrete form for round-trip witnesses. -/
def fDell : FormData :=
  { asset_name := some "Dell", location := some "Accra",
    department := some "IT", serial_number := some "1",
    category := some "Laptop", status := some "In Use" }

/-- A concrete created record. -/
def rCreated : Asset := mkNewAsset fDell (generate_asset_tag fDell) (now_iso 2024 1 2 3 4 5)

/-- The record after one Update submit. -/
def rUpdatedOnce : Asset :=
  applyUpdates rCreated
    (mkUpdates fDell (now_iso 2024 1 2 3 4 6) rCreated.update_count rCreated.update_history)

/-- A sample laptop row. -/
def exLaptop1 : Asset :=
  { asset_tag := "T1", category := some "Laptop", department := some "IT",
    condition := some "Good", status := some "In Use", date_added := "2024-01-01 00:00:00" }

/-- A second sample laptop row. -/
def exLaptop2 : Asset :=
  { asset_tag := "T2", category := some "Laptop", department := some "HR",
    condition := some "New", status := some "In Storage", date_added := "2024-01-02 00:00:00" }

/-- A sample printer row. -/
def exPrinter3 : Asset :=
  { asset_tag := "T3", category := some "Printer", department := some "IT",
    condition := some "Fair", status := some "In Use", date_added := "2024-01-03 00:00:00" }

/-- A sample updates dictionary touching a single column. -/
def uNotes : Updates := { notes := some (some "checked") }

/-- The empty updates dictionary. -/
def uEmpty : Updates := {}

/-- A one-record store. -/
def sOne : Store := [exLaptop1]

/-- A two-record store. -/
def sTwo : Store := [exLaptop1, exLaptop2]

/-- A concrete key-derivation function standing in for PBKDF2 in witnesses;
it is injective in the password for a fixed salt. -/
def hashDemo (password salt : String) : String := password ++ ":" ++ salt

/-! ## Helper lemmas -/

theorem strData_append (a b : String) : (a ++ b).data = a.data ++ b.data := by
  cases a; cases b; rfl

theorem str_eq_empty_iff (s : String) : s = "" ↔ s.data = [] := by
  cases s; simp [String.ext_iff]

theorem mk_data (l : List Char) : (String.mk l).data = l := rfl

theorem digitChar10_isDigit (n : Nat) : (digitChar10 n).isDigit = true := by
  unfold digitChar10
  repeat' split
  all_goals decide

theorem isDigit_ne_dash {c : Char} (h : c.isDigit = true) : c ≠ '-' := by
  intro e; subst e; exact absurd h (by decide)

theorem isDigit_ne_plus {c : Char} (h : c.isDigit = true) : c ≠ '+' := by
  intro e; subst e; exact absurd h (by decide)

theorem isDigit_ne_pipe {c : Char} (h : c.isDigit = true) : c ≠ '|' := by
  intro e; subst e; exact absurd h (by decide)

theorem natChars_digits (n : Nat) : ∀ c ∈ natChars n, c.isDigit = true := by
  induction n using natChars.induct with
  | case1 n hlt =>
    intro c hc
    rw [natChars.eq_def, dif_pos hlt] at hc
    rcases List.mem_singleton.mp hc with rfl
    exact digitChar10_isDigit n
  | case2 n hlt ih =>
    intro c hc
    rw [natChars.eq_def, dif_neg hlt] at hc
    rcases List.mem_append.mp hc with hc | hc
    · exact ih c hc
    · rcases List.mem_singleton.mp hc with rfl
      exact digitChar10_isDigit _

theorem natChars_ne_nil (n : Nat) : natChars n ≠ [] := by
  rw [natChars.eq_def]
  split
  · simp
  · simp

theorem natStr_ne_nil (n : Nat) : (natStr n).data ≠ [] := natChars_ne_nil n

theorem zfill_mem {s : String} {w : Nat} {c : Char} (h : c ∈ (zfill s w).data) :
    c ∈ s.data ∨ c = '0' := by
  unfold zfill at h
  split at h
  · exact Or.inl h
  · split at h
    next heq =>
      exact Or.inr (List.eq_of_mem_replicate h)
    next c0 cs heq =>
      split at h
      · rw [mk_data] at h
        rcases List.mem_cons.mp h with rfl | h
        · exact Or.inl (heq ▸ List.mem_cons_self _ _)
        · rcases List.mem_append.mp h with h | h
          · exact Or.inr (List.eq_of_mem_replicate h)
          · exact Or.inl (heq ▸ List.mem_cons_of_mem _ h)
      · rw [mk_data] at h
        rcases List.mem_append.mp h with h | h
        · exact Or.inr (List.eq_of_mem_replicate h)
        · exact Or.inl (heq ▸ h)

theorem zfill_ne_nil {s : String} {w : Nat} (h : s.data ≠ []) :
    (zfill s w).data ≠ [] := by
  unfold zfill
  split
  · exact h
  · split
    next heq => exact absurd heq h
    next c0 cs heq =>
      split
      · simp
      · simp

theorem zfill_digits {s : String} (h1 : s.data ≠ [])
    (h2 : ∀ c ∈ s.data, c.isDigit = true) (h3 : s.data.length ≤ 4) :
    ((zfill s 4).data.length = 4 ∧ ∀ c ∈ (zfill s 4).data, c.isDigit = true) := by
  have hslen : s.length = s.data.length := rfl
  unfold zfill
  split
  next hle =>
    refine ⟨by omega, h2⟩
  next hlt =>
    split
    next heq => exact absurd heq h1
    next c0 cs heq =>
      have hc0 : c0.isDigit = true := h2 c0 (heq ▸ List.mem_cons_self _ _)
      rw [if_neg (by
        rintro (e | e)
        · exact isDigit_ne_plus hc0 e
        · exact isDigit_ne_dash hc0 e)]
      rw [mk_data]
      refine ⟨?_, ?_⟩
      · rw [List.length_append, List.length_replicate, hslen]
        have h5 : (c0 :: cs).length = s.data.length := by rw [heq]
        rw [hslen] at hlt
        omega
      · intro c hc
        rcases List.mem_append.mp hc with hc | hc
        · rcases List.eq_of_mem_replicate hc with rfl
          decide
        · exact h2 c (heq ▸ hc)

theorem zfill_natStr_no_pipe (n w : Nat) : '|' ∉ (zfill (natStr n) w).data := by
  intro h
  rcases zfill_mem h with h | h
  · exact absurd (natChars_digits n _ h) (by decide)
  · exact absurd h (by decide)

theorem now_iso_no_pipe (y mo d h mi s : Nat) : '|' ∉ (now_iso y mo d h mi s).data := by
  intro hc
  simp only [now_iso, pad4, pad2, strData_append, List.mem_append] at hc
  rcases hc with ((((((((((hc | hc) | hc) | hc) | hc) | hc) | hc) | hc) | hc) | hc) | hc)
  all_goals first
    | exact zfill_natStr_no_pipe _ _ hc
    | exact absurd hc (by decide)

theorem now_iso_ne_nil (y mo d h mi s : Nat) : (now_iso y mo d h mi s).data ≠ [] := by
  intro he
  simp only [now_iso, pad4, pad2, strData_append, List.append_eq_nil] at he
  simp at he

theorem splitD_ne_nil (l : List Char) : splitD l ≠ [] := by
  induction l with
  | nil => simp [splitD]
  | cons c rest ih =>
    by_cases hc : c = '-'
    · simp [splitD, hc]
    · cases hs : splitD rest with
      | nil => exact absurd hs ih
      | cons a as => simp [splitD, hc, hs]

theorem splitD_no_sep {l : List Char} (h : ∀ c ∈ l, c ≠ '-') : splitD l = [l] := by
  induction l with
  | nil => rfl
  | cons c rest ih =>
    have hc : c ≠ '-' := h c (List.mem_cons_self _ _)
    have hrest := ih (fun x hx => h x (List.mem_cons_of_mem _ hx))
    simp [splitD, hc, hrest]

theorem splitD_append_length (l s : List Char) :
    2 ≤ (splitD (l ++ '-' :: s)).length := by
  induction l with
  | nil =>
    cases hs : splitD s with
    | nil => exact absurd hs (splitD_ne_nil s)
    | cons a as => simp [splitD, hs]
  | cons c rest ih =>
    by_cases hc : c = '-'
    · have := splitD_ne_nil (rest ++ '-' :: s)
      cases hx : splitD (rest ++ '-' :: s) with
      | nil => exact absurd hx this
      | cons a as => simp [List.cons_append, splitD, hc, hx]
    · cases hx : splitD (rest ++ '-' :: s) with
      | nil => exact absurd hx (splitD_ne_nil _)
      | cons a as =>
        rw [hx] at ih
        simp only [List.length_cons] at ih
        simp [List.cons_append, splitD, hc, hx]
        omega

theorem getLast?_splitD_append (l s : List Char) :
    (splitD (l ++ '-' :: s)).getLast? = (splitD s).getLast? := by
  induction l with
  | nil =>
    cases hs : splitD s with
    | nil => exact absurd hs (splitD_ne_nil s)
    | cons a as =>
      simp only [List.nil_append, splitD, if_pos rfl, hs]
      exact List.getLast?_cons_cons
  | cons c rest ih =>
    by_cases hc : c = '-'
    · cases hx : splitD (rest ++ '-' :: s) with
      | nil => exact absurd hx (splitD_ne_nil _)
      | cons a as =>
        rw [hx] at ih
        simp only [List.cons_append, splitD, if_pos hc, List.append_eq, hx]
        rw [List.getLast?_cons_cons]
        exact ih
    · cases hx : splitD (rest ++ '-' :: s) with
      | nil => exact absurd hx (splitD_ne_nil _)
      | cons a as =>
        have hlen := splitD_append_length rest s
        rw [hx] at hlen
        cases as with
        | nil => simp at hlen
        | cons b bs =>
          rw [hx] at ih
          simp only [List.cons_append, splitD, if_neg hc, List.append_eq, hx]
          rw [List.getLast?_cons_cons]
          rw [List.getLast?_cons_cons] at ih
          exact ih

theorem lastSegment_tail (x serial : String) (hs : ∀ c ∈ serial.data, c ≠ '-') :
    lastSegment (x ++ "-" ++ serial) = serial.data := by
  unfold lastSegment
  have hdata : (x ++ "-" ++ serial).data = x.data ++ '-' :: serial.data := by
    rw [strData_append, strData_append, List.append_assoc]
    rfl
  rw [hdata, getLast?_splitD_append, splitD_no_sep hs]
  rfl

/-! ## Claims -/

/-- C1: for every submitted field set, `generate_asset_tag` returns exactly
the specification's formula: the uppercased first three characters of asset
name, location and department (with the literal defaults `"AST"`, `"LOC"`,
`"GEN"` substituted before truncation when a field is empty or absent, and
fields shorter than 3 characters used as-is), joined by `"-"` and followed
by the serial number zero-left-padded to width 4 (the literal `"0000"` when
the serial is absent). -/
theorem c1_tag_formula (f : FormData) : generate_asset_tag f = specTag f := by
  have h1 : ∀ (o : Option String) (d : String),
      pyUpper (pyTake (pyOr o d) 3) = pyUpper (firstThreeChars o d) := by
    intro o d
    cases o with
    | none => rfl
    | some s =>
      by_cases hs : s = "" <;> simp [pyOr, firstThreeChars, hs]
  have h2 : (if strTruthy f.serial_number then
      zfill (f.serial_number.getD "") 4 else "0000") = zeroPad f.serial_number := by
    cases hser : f.serial_number with
    | none => rfl
    | some s =>
      by_cases hs : s = "" <;> simp [strTruthy, zeroPad, hs]
  show pyUpper (pyTake (pyOr f.asset_name "AST") 3) ++ "-" ++
      pyUpper (pyTake (pyOr f.location "LOC") 3) ++ "-" ++
      pyUpper (pyTake (pyOr f.department "GEN") 3) ++ "-" ++
      (if strTruthy f.serial_number then
        zfill (f.serial_number.getD "") 4 else "0000") = specTag f
  rw [h1, h1, h1, h2]
  rfl

/-- C4 counterexample: the tag-format claim fails on the code. With serial
number `"abc"` the generated tag is `"AST-LOC-GEN-0abc"`, whose last
`"-"`-separated segment is not made of digits; with asset name `"ab"` the
generated tag is `"AB-LOC-GEN-0007"`, whose first segment has only two
characters. -/
theorem c4_counterexample :
    tagShape (generate_asset_tag fSerialAlpha) = false ∧
    tagShape (generate_asset_tag fShortName) = false := by
  constructor <;> rfl

/-- C4 as amended: whenever the serial-number field is absent, empty, or a
non-empty all-digit string of at most 4 characters, the last
`"-"`-separated segment of the generated tag consists of exactly 4 digit
characters (the first three segments are the uppercased at-most-3-character
prefixes and may be shorter than 3). -/
theorem c4_last_segment_digits (f : FormData)
    (hser : f.serial_number = none ∨ f.serial_number = some "" ∨
      ∃ sn, f.serial_number = some sn ∧ sn.data ≠ [] ∧
        (∀ c ∈ sn.data, c.isDigit = true) ∧ sn.data.length ≤ 4) :
    (lastSegment (generate_asset_tag f)).length = 4 ∧
    ∀ c ∈ lastSegment (generate_asset_tag f), c.isDigit = true := by
  rcases hser with h | h | ⟨sn, hsn, hne, hdig, hlen⟩
  · simp only [generate_asset_tag, h]
    rw [lastSegment_tail _ _ (by decide)]
    exact ⟨rfl, by decide⟩
  · simp only [generate_asset_tag, h]
    rw [show strTruthy (some "") = false from rfl]
    simp only [Bool.false_eq_true, if_false]
    rw [lastSegment_tail _ _ (by decide)]
    exact ⟨rfl, by decide⟩
  · have hne2 : sn ≠ "" := fun e => hne ((str_eq_empty_iff sn).mp e)
    simp only [generate_asset_tag, hsn]
    rw [show strTruthy (some sn) = true by simp [strTruthy, hne2]]
    simp only [if_true, Option.getD_some]
    obtain ⟨hl4, hdig4⟩ := zfill_digits hne hdig hlen
    rw [lastSegment_tail _ _ (fun c hc => isDigit_ne_dash (hdig4 c hc))]
    exact ⟨hl4, hdig4⟩

/-- C4 witness: a concrete two-digit serial yields a 4-digit last segment. -/
theorem c4_witness :
    (lastSegment (generate_asset_tag fSerial12)).length = 4 ∧
    ∀ c ∈ lastSegment (generate_asset_tag fSerial12), c.isDigit = true :=
  c4_last_segment_digits fSerial12
    (Or.inr (Or.inr ⟨"12", rfl, by decide, by decide, by decide⟩))

/-- The per-row UPDATE leaves every row untouched when no row's tag
matches. -/
theorem update_map_id (t : String) (u : Updates) (s : Store)
    (h : ∀ r ∈ s, r.asset_tag ≠ t) :
    s.map (fun r => if r.asset_tag == t then applyUpdates r u else r) = s := by
  induction s with
  | nil => rfl
  | cons a l ih =>
    have ha : (a.asset_tag == t) = false :=
      beq_eq_false_iff_ne.mpr (h a (List.mem_cons_self _ _))
    simp only [List.map_cons, ha, Bool.false_eq_true, if_false]
    rw [ih (fun r hr => h r (List.mem_cons_of_mem _ hr))]

/-- C5 counterexample: updating a tag that is not in the store never fails
with `NotFoundError`. At the concrete absent tag `"ZZZ"` with a non-empty
change-set, `update_asset` returns the store unchanged — a normal,
successful result — whereas the specification's `applyPartialUpdate`
reference fails with `NotFoundError` there; and the only error
`update_asset` can raise is `sqlite3.OperationalError` on an empty
change-set (from the degenerate SQL), still not `NotFoundError`. -/
theorem c5_counterexample :
    update_asset "ZZZ" uNotes sOne = Except.ok sOne ∧
    applyPartialUpdateSpec "ZZZ" uNotes sOne = Except.error RepoError.notFound ∧
    update_asset "ZZZ" uEmpty sOne = Except.error SqlError.operationalError :=
  ⟨rfl, rfl, rfl⟩

/-- C5 as amended: for every tag not present in the repository,
`update_asset` never fails with `NotFoundError` and never modifies the
stored collection: with a non-empty set of field changes the call succeeds
silently, returning the collection unchanged; with an empty set of field
changes it fails with `sqlite3.OperationalError` raised by the degenerate
`UPDATE assets SET  WHERE asset_tag=?` statement (an error independent of
the tag and still distinct from `NotFoundError`). -/
theorem c5_silent_noop (t : String) (u : Updates) (s : Store)
    (h : ∀ r ∈ s, r.asset_tag ≠ t) :
    (u.isEmptyDict = false → update_asset t u s = Except.ok s) ∧
    (u.isEmptyDict = true → update_asset t u s = Except.error SqlError.operationalError) := by
  constructor
  · intro hu
    simp only [update_asset, hu, Bool.false_eq_true, if_false]
    rw [update_map_id t u s h]
  · intro hu
    simp only [update_asset, hu, if_true]

/-- C5 witness: the amended statement at a concrete absent tag and a
concrete one-column change-set. -/
theorem c5_witness :
    (uNotes.isEmptyDict = false → update_asset "NOPE" uNotes sOne = Except.ok sOne) ∧
    (uNotes.isEmptyDict = true →
      update_asset "NOPE" uNotes sOne = Except.error SqlError.operationalError) :=
  c5_silent_noop "NOPE" uNotes sOne (by decide)

/-- C10: on a fresh (empty) database, `init_db` creates the tables, reads
the administrator bootstrap secret and queries the count of existing
`admin` rows, but inserts no user row: the users table stays empty, the
queried count is 0, and `verify_user` returns `(false, none)` for every
username and password until `add_user` is invoked separately. -/
theorem c10_init_db_no_bootstrap :
    ∀ (admin_secret : Option String) (hash : String → String → String) (u p : String),
      (init_db admin_secret freshDB).1.users = [] ∧
      (init_db admin_secret freshDB).2.1 = admin_secret ∧
      (init_db admin_secret freshDB).2.2 = 0 ∧
      verify_user hash u p (init_db admin_secret freshDB).1.users = (false, none) :=
  fun _ _ _ _ => ⟨rfl, rfl, rfl, rfl⟩

/-- C2: records are created with update count 0 and empty history; every
Update submit sets the new count to the old count plus exactly 1 and the
new history to the current timestamp when the old history is empty, else to
the old history followed by `" | "` and the timestamp; consequently, in
every reachable record the number of `" | "`-separated timestamp entries in
the history equals the update counter. -/
theorem c2_update_history_invariant :
    (∀ (f : FormData) (tag now : String),
      (mkNewAsset f tag now).update_count = 0 ∧
      (mkNewAsset f tag now).update_history = "") ∧
    (∀ (r : Asset) (f : FormData) (now : String),
      (applyUpdates r (mkUpdates f now r.update_count r.update_history)).update_count =
        r.update_count + 1 ∧
      (applyUpdates r (mkUpdates f now r.update_count r.update_history)).update_history =
        (if r.update_history = "" then now else r.update_history ++ " | " ++ now)) ∧
    (∀ r : Asset, ReachableAsset r → entryCount r.update_history = r.update_count) := by
  refine ⟨fun f tag now => ⟨rfl, rfl⟩, fun r f now => ⟨rfl, rfl⟩, ?_⟩
  intro r hr
  induction hr with
  | created f y mo d h mi s => rfl
  | updated f y mo d h mi s r hr ih =>
    show entryCount (if r.update_history = "" then now_iso y mo d h mi s
        else r.update_history ++ " | " ++ now_iso y mo d h mi s) = r.update_count + 1
    by_cases hh : r.update_history = ""
    · rw [if_pos hh]
      have h0 : r.update_count = 0 := by
        rw [← ih, hh]; rfl
      rw [h0]
      unfold entryCount
      rw [if_neg (now_iso_ne_nil y mo d h mi s)]
      rw [List.count_eq_zero.mpr (now_iso_no_pipe y mo d h mi s)]
    · rw [if_neg hh]
      have hd : r.update_history.data ≠ [] := fun e => hh ((str_eq_empty_iff _).mpr e)
      have hne : (r.update_history ++ " | " ++ now_iso y mo d h mi s).data ≠ [] := by
        rw [strData_append, strData_append]
        intro he
        rcases List.append_eq_nil.mp he with ⟨he1, -⟩
        rcases List.append_eq_nil.mp he1 with ⟨-, he2⟩
        exact absurd he2 (by decide)
      unfold entryCount
      rw [if_neg hne, strData_append, strData_append,
        List.count_append, List.count_append]
      have hsep : (" | " : String).data.count '|' = 1 := rfl
      have hts : (now_iso y mo d h mi s).data.count '|' = 0 :=
        List.count_eq_zero.mpr (now_iso_no_pipe y mo d h mi s)
      rw [hsep, hts]
      rw [entryCount, if_neg hd] at ih
      omega

/-- C2 witness: the invariant at a concrete record created and then
updated once. -/
theorem c2_witness : entryCount rUpdatedOnce.update_history = rUpdatedOnce.update_count :=
  c2_update_history_invariant.2.2 rUpdatedOnce
    (ReachableAsset.updated fDell 2024 1 2 3 4 6 rCreated
      (ReachableAsset.created fDell 2024 1 2 3 4 5))

/-- C3: for every pair of forms resolving to the same generated tag (the
tag being absent beforehand), the first Add submit succeeds and the second
fails with the duplicate-tag error, leaving the stored collection with
exactly one record carrying that tag. -/
theorem c3_duplicate_tag (f g : FormData) (n1 n2 : String) (s : Store)
    (htag : generate_asset_tag g = generate_asset_tag f)
    (habs : get_asset (generate_asset_tag f) s = none) :
    ∃ s2, addAsset f n1 s = Except.ok s2 ∧
      addAsset g n2 s2 = Except.error AddError.duplicateTag ∧
      (s2.filter (fun r => r.asset_tag == generate_asset_tag f)).length = 1 := by
  refine ⟨insert_asset (mkNewAsset f (generate_asset_tag f) n1) s, ?_, ?_, ?_⟩
  · simp only [addAsset, habs]
  · have hfound : get_asset (generate_asset_tag f)
        (insert_asset (mkNewAsset f (generate_asset_tag f) n1) s) =
        some (mkNewAsset f (generate_asset_tag f) n1) := by
      unfold get_asset insert_asset
      unfold get_asset at habs
      rw [List.find?_append, habs]
      simp [mkNewAsset]
    simp only [addAsset, htag, hfound]
  · unfold insert_asset
    rw [List.filter_append]
    have h0 : s.filter (fun r => r.asset_tag == generate_asset_tag f) = [] := by
      rw [List.filter_eq_nil_iff]
      unfold get_asset at habs
      rw [List.find?_eq_none] at habs
      exact habs
    rw [h0]
    simp [mkNewAsset]

/-- C3 witness: submitting the same concrete form twice into an empty
store. -/
theorem c3_witness :
    ∃ s2, addAsset fDell "2024-01-02 03:04:05" [] = Except.ok s2 ∧
      addAsset fDell "2024-01-02 03:04:06" s2 = Except.error AddError.duplicateTag ∧
      (s2.filter (fun r => r.asset_tag == generate_asset_tag fDell)).length = 1 :=
  c3_duplicate_tag fDell fDell "2024-01-02 03:04:05" "2024-01-02 03:04:06" [] rfl rfl

/-- C6: a non-degenerate `update_asset` call (a non-empty updates
dictionary — every actual call site supplies the full form, and the empty
dictionary instead surfaces `sqlite3.OperationalError`, claim C5's
counterexample) succeeds and changes only the fields supplied in the
dictionary of the one record whose tag matches: the store's length is
unchanged; a record with a different tag is untouched; the matching record
receives exactly the supplied fields, each unsupplied field keeping its
prior value; and the record's tag (and creation timestamp) is never
altered. -/
theorem c6_partial_update_frame (t : String) (u : Updates) (s : Store)
    (hu : u.isEmptyDict = false) :
    ∃ s2, update_asset t u s = Except.ok s2 ∧
    s2.length = s.length ∧
    (∀ (i : Nat) (r0 : Asset), s[i]? = some r0 → r0.asset_tag ≠ t →
      s2[i]? = some r0) ∧
    (∀ (i : Nat) (r0 : Asset), s[i]? = some r0 → r0.asset_tag = t →
      s2[i]? = some (applyUpdates r0 u)) ∧
    (∀ r0 : Asset,
      (applyUpdates r0 u).asset_tag = r0.asset_tag ∧
      (applyUpdates r0 u).date_added = r0.date_added ∧
      (applyUpdates r0 u).asset_name = u.asset_name.getD r0.asset_name ∧
      (applyUpdates r0 u).category = u.category.getD r0.category ∧
      (applyUpdates r0 u).description = u.description.getD r0.description ∧
      (applyUpdates r0 u).serial_number = u.serial_number.getD r0.serial_number ∧
      (applyUpdates r0 u).assigned_to = u.assigned_to.getD r0.assigned_to ∧
      (applyUpdates r0 u).department = u.department.getD r0.department ∧
      (applyUpdates r0 u).purchase_date = u.purchase_date.getD r0.purchase_date ∧
      (applyUpdates r0 u).purchase_price_ghs = u.purchase_price_ghs.getD r0.purchase_price_ghs ∧
      (applyUpdates r0 u).condition = u.condition.getD r0.condition ∧
      (applyUpdates r0 u).location = u.location.getD r0.location ∧
      (applyUpdates r0 u).status = u.status.getD r0.status ∧
      (applyUpdates r0 u).warranty_end_date = u.warranty_end_date.getD r0.warranty_end_date ∧
      (applyUpdates r0 u).maintenance_schedule = u.maintenance_schedule.getD r0.maintenance_schedule ∧
      (applyUpdates r0 u).last_updated = u.last_updated.getD r0.last_updated ∧
      (applyUpdates r0 u).disposal_date = u.disposal_date.getD r0.disposal_date ∧
      (applyUpdates r0 u).notes = u.notes.getD r0.notes ∧
      (applyUpdates r0 u).update_count = u.update_count.getD r0.update_count ∧
      (applyUpdates r0 u).update_history = u.update_history.getD r0.update_history) := by
  refine ⟨s.map (fun r => if r.asset_tag == t then applyUpdates r u else r),
    by simp only [update_asset, hu, Bool.false_eq_true, if_false],
    by simp, ?_, ?_, fun r0 =>
    ⟨rfl, rfl, rfl, rfl, rfl, rfl, rfl, rfl, rfl, rfl,
      rfl, rfl, rfl, rfl, rfl, rfl, rfl, rfl, rfl, rfl⟩⟩
  · intro i r0 hi hne
    rw [List.getElem?_map, hi]
    have hb : (r0.asset_tag == t) = false := beq_eq_false_iff_ne.mpr hne
    simp [hb]
    exact fun h => absurd h hne
  · intro i r0 hi hteq
    rw [List.getElem?_map, hi]
    have hb : (r0.asset_tag == t) = true := beq_iff_eq.mpr hteq
    simp [hb]
    exact fun h => absurd hteq h

/-- C6 witness: in a concrete two-record store, updating tag `"T1"` with a
one-column change-set succeeds, leaves the `"T2"` record untouched and
rewrites only the supplied field of the `"T1"` record. -/
theorem c6_witness :
    ∃ s2, update_asset "T1" uNotes sTwo = Except.ok s2 ∧
      s2[1]? = some exLaptop2 ∧
      s2[0]? = some (applyUpdates exLaptop1 uNotes) := by
  obtain ⟨s2, hok, -, hframe, hhit, -⟩ :=
    c6_partial_update_frame "T1" uNotes sTwo (by decide)
  exact ⟨s2, hok, hframe 1 exLaptop2 rfl (by decide), hhit 0 exLaptop1 rfl rfl⟩

/-- C7: after `add_user(u, p, role)` with a valid role (and any salt),
`verify_user(u, p)` returns `(true, role)`; any password whose derived hash
differs from the stored one yields `(false, none)`; and any username absent
from the store yields `(false, none)`. The key-derivation function is a
parameter standing in for PBKDF2-HMAC-SHA256. -/
theorem c7_credential_roundtrip (hash : String → String → String)
    (u p role salt : String) (db : List UserRow)
    (hrole : role = "admin" ∨ role = "user") :
    ∃ db2,
      add_user hash u p role salt db = Except.ok db2 ∧
      verify_user hash u p db2 = (true, some role) ∧
      (∀ p2, hash p2 salt ≠ hash p salt →
        verify_user hash u p2 db2 = (false, none)) ∧
      (∀ (db3 : List UserRow) (u3 p3 : String), (∀ r ∈ db3, r.username ≠ u3) →
        verify_user hash u3 p3 db3 = (false, none)) := by
  refine ⟨(db.filter (fun r => r.username != u)) ++ [⟨u, hash p salt, salt, role⟩],
    ?_, ?_, ?_, ?_⟩
  · rw [add_user, if_pos hrole]
  · have hfind : List.find? (fun r => r.username == u)
        ((db.filter (fun r => r.username != u)) ++ [⟨u, hash p salt, salt, role⟩]) =
        some ⟨u, hash p salt, salt, role⟩ := by
      rw [List.find?_append]
      have hnone : List.find? (fun r => r.username == u)
          (db.filter (fun r => r.username != u)) = none := by
        rw [List.find?_eq_none]
        intro x hx
        rcases List.mem_filter.mp hx with ⟨-, hx2⟩
        simp only [bne_iff_ne, ne_eq] at hx2
        simp [hx2]
      rw [hnone]
      simp
    rw [verify_user, hfind]
    simp
  · intro p2 hp2
    have hfind : List.find? (fun r => r.username == u)
        ((db.filter (fun r => r.username != u)) ++ [⟨u, hash p salt, salt, role⟩]) =
        some ⟨u, hash p salt, salt, role⟩ := by
      rw [List.find?_append]
      have hnone : List.find? (fun r => r.username == u)
          (db.filter (fun r => r.username != u)) = none := by
        rw [List.find?_eq_none]
        intro x hx
        rcases List.mem_filter.mp hx with ⟨-, hx2⟩
        simp only [bne_iff_ne, ne_eq] at hx2
        simp [hx2]
      rw [hnone]
      simp
    rw [verify_user, hfind]
    simp only []
    rw [if_neg hp2]
  · intro db3 u3 p3 habs
    have hnone : List.find? (fun r => r.username == u3) db3 = none := by
      rw [List.find?_eq_none]
      intro x hx
      simp [habs x hx]
    rw [verify_user, hnone]

/-- C7 witness: a concrete upsert/verify round-trip with an injective
stand-in hash. -/
theorem c7_witness :
    ∃ db2,
      add_user hashDemo "alice" "pw" "user" "s1" [] = Except.ok db2 ∧
      verify_user hashDemo "alice" "pw" db2 = (true, some "user") ∧
      (∀ p2, hashDemo p2 "s1" ≠ hashDemo "pw" "s1" →
        verify_user hashDemo "alice" p2 db2 = (false, none)) ∧
      (∀ (db3 : List UserRow) (u3 p3 : String), (∀ r ∈ db3, r.username ≠ u3) →
        verify_user hashDemo u3 p3 db3 = (false, none)) :=
  c7_credential_roundtrip hashDemo "alice" "pw" "user" "s1" [] (Or.inr rfl)

/-- C8: `get_all_assets_df` returns every stored record — a permutation of
the store — ordered by the creation timestamp column `date_added`
descending (newest first). -/
theorem c8_list_all_sorted (s : Store) :
    (get_all_assets_df s).Perm s ∧ List.Sorted assetOrder (get_all_assets_df s) :=
  ⟨List.perm_insertionSort assetOrder s, List.sorted_insertionSort assetOrder s⟩

/-- C9: the dashboard's categorical filter block keeps exactly the records
whose column value is a member of the filter list when the list is
non-empty, and passes every record through when the list is empty — stated
as one combined filter equation — and, on three concrete records with
categories Laptop, Laptop, Printer, filtering by `category=["Laptop"]`
yields exactly the 2 laptop records, whose category-group count is
`{"Laptop": 2}`. -/
theorem c9_dashboard_filters :
    (∀ (fc fd fo fs : List String) (l : List Asset),
      dashboardFilter fc fd fo fs l =
        l.filter (fun r =>
          (fc.isEmpty || isinOpt r.category fc) &&
          (fd.isEmpty || isinOpt r.department fd) &&
          (fo.isEmpty || isinOpt r.condition fo) &&
          (fs.isEmpty || isinOpt r.status fs))) ∧
    dashboardFilter ["Laptop"] [] [] [] [exLaptop1, exLaptop2, exPrinter3] =
      [exLaptop1, exLaptop2] ∧
    (dashboardFilter ["Laptop"] [] [] [] [exLaptop1, exLaptop2, exPrinter3]).length = 2 ∧
    countCategory (dashboardFilter ["Laptop"] [] [] [] [exLaptop1, exLaptop2, exPrinter3])
      "Laptop" = 2 ∧
    (dashboardFilter ["Laptop"] [] [] [] [exLaptop1, exLaptop2, exPrinter3]).all
      (fun r => r.category == some "Laptop") = true := by
  refine ⟨?_, rfl, rfl, rfl, rfl⟩
  intro fc fd fo fs l
  simp only [dashboardFilter]
  cases h1 : fc.isEmpty <;> cases h2 : fd.isEmpty <;>
    cases h3 : fo.isEmpty <;> cases h4 : fs.isEmpty <;>
    simp [List.filter_filter, Bool.and_comm, Bool.and_assoc, Bool.and_left_comm]
